import Mathlib

/-!
Shallow embedding of `rover_ws/src/rover_navigation/rover_navigation/task_executor.py`
(the `AutonomyTaskExecutor` node).

The mission thread of the executor is modelled as pure functions that return a
value together with the trace of externally visible actions (mode-switch service
calls, motion goals, goal cancellations, and the task feedback strings emitted
through `task_info` / `task_warn` / `task_error` / `task_fatal`).  A raised
Python exception is modelled by an error result that still carries the trace
accumulated before the raise, together with the value of `self.leg` at the
raise site (used by the top-level `task_fatal`).

Interactions that the executor only observes (completion of a Nav2 goal,
the cancel flag of the action goal handle, the current content of
`self.found_poses[self.leg]` at each polling tick, the external order/path
planners from `plan_utils`, and the pose conversions performed via tf2) are
supplied as explicit environment data, one datum per observation point,
mirroring exactly where the Python code reads them.

Coordinates are exact rationals; node-logger-only output (`self.info`, debug
logs) and the mapviz telemetry publishers are not part of the observable trace.
-/

/-- A latitude/longitude pair in degrees, as produced by `latLonYaw2Geopose`
(the yaw component is never read by the executor logic modelled here). -/
structure GeoPose where
  lat : ℚ
  lon : ℚ
deriving DecidableEq, Repr

/-- One entry of the parsed waypoint file `self.wps`: a leg name and its
GPS coordinates. -/
structure Waypoint where
  leg : String
  latitude : ℚ
  longitude : ℚ
deriving DecidableEq, Repr

/-- `self.gps_legs = ["gps1", "gps2"]`. -/
def gpsLegs : List String := ["gps1", "gps2"]

/-- `self.aruco_legs = ["aruco1", "aruco2", "aruco3"]`. -/
def arucoLegs : List String := ["aruco1", "aruco2", "aruco3"]

/-- `self.obj_legs = ["mallet", "bottle"]`. -/
def objLegs : List String := ["mallet", "bottle"]

/-- `self.tags = {"aruco1": 1, "aruco2": 2, "aruco3": 3}`. -/
def tags : List (String × Nat) := [("aruco1", 1), ("aruco2", 2), ("aruco3", 3)]

/-- Dictionary lookup `self.tags[leg]` (as an `Option`; the only call site is
guarded by `self.leg in self.aruco_legs`, under which the key is present). -/
def tagsLookup (leg : String) : Option Nat :=
  (tags.find? (fun p => p.1 = leg)).map (fun p => p.2)

/-- `self.wait_time = 10` — seconds to wait after arrival. -/
def waitTime : Nat := 10

/-- `self.update_threshold = 0.000005` — threshold for updating tag and item
locations, in degrees. -/
def updateThreshold : ℚ := 5 / 1000000

/-- `self.hex_coord` — the six unit offsets of the hex search pattern, in
source order. -/
def hexCoord : List (ℚ × ℚ) :=
  [(1, 0), (1/2, 433/500), (-1/2, 433/500), (-1, 0), (-1/2, -433/500), (1/2, -433/500)]

/-- `self.hex_scalar = 0.0001`. -/
def hexScalar : ℚ := 1 / 10000

/-- `time.sleep(0.1)` in the `gps_nav` polling loop, in milliseconds. -/
def navPollSleepMs : Nat := 100

/-- `time.sleep(0.1)` in the `spin_search` polling loop, in milliseconds. -/
def spinPollSleepMs : Nat := 100

/-- `time.sleep(1)` in the wait-for-GPS-fix loop of `exec_autonomy_task`,
in milliseconds. -/
def gpsFixSleepMs : Nat := 1000

/-- `time.sleep(0.5)` settle period after cancelling an in-flight goal on a
material location change, in milliseconds. -/
def settleSleepMs : Nat := 500

/-- Externally visible actions of the mission thread: the three mode-switch
service calls, motion goals and their cancellation, and the task feedback
strings sent to the `RunTask` action client (tagged with `self.leg`). -/
inductive Event where
  | triggerAuto
  | triggerTeleop
  | triggerArrival
  | followGps (dest : GeoPose)
  | spinGoal (dist : ℚ)
  | cancelGoal
  | info (leg msg : String)
  | warn (leg msg : String)
  | error (leg msg : String)
  | fatal (leg msg : String)
deriving DecidableEq, Repr

/-- The Python exceptions the executor can raise (all are plain `Exception`s
in the source; we keep them distinguishable and record their `str(e)` via
`TaskError.toMessage`).  `attributeError` models the `AttributeError` that
`pose.position.latitude` raises when `found_check` returned `False`;
`nameError` models the unbound `base_wp` in `hex_search` when no waypoint
matches; `outOfEnv` is a model artifact marking that the supplied environment
ran out before the convergence loop finished (the real loop would keep
navigating). -/
inductive TaskError where
  | canceled
  | invalidOrderPlanner (name : String)
  | invalidPathPlanner (name : String)
  | attributeError
  | nameError
  | outOfEnv
deriving DecidableEq, Repr

/-- The `str(e)` text of each modelled exception. -/
def TaskError.toMessage : TaskError → String
  | .canceled => "Task execution canceled by action client"
  | .invalidOrderPlanner n => "Invalid order planner provided: " ++ n
  | .invalidPathPlanner n => "Invalid path planner provided: " ++ n
  | .attributeError => "'bool' object has no attribute 'position'"
  | .nameError => "name 'base_wp' is not defined"
  | .outOfEnv => "model environment exhausted"

/-- Result of a mission-thread computation: a value or a raised exception,
together with the trace of events emitted before returning/raising, and (for
the error case) the value of `self.leg` at the raise site. -/
inductive TRes (α : Type) where
  | ok (val : α) (trace : List Event)
  | err (e : TaskError) (legAt : String) (trace : List Event)
deriving DecidableEq, Repr

/-- The event trace of a result. -/
def TRes.trace : {α : Type} → TRes α → List Event
  | _, .ok _ tr => tr
  | _, .err _ _ tr => tr

/-- The returned value of a result, when no exception was raised. -/
def TRes.value : {α : Type} → TRes α → Option α
  | _, .ok v _ => some v
  | _, .err _ _ _ => none

/-- Prepend already-emitted events to a result's trace. -/
def TRes.withPre {α : Type} (pre : List Event) : TRes α → TRes α
  | .ok v tr => .ok v (pre ++ tr)
  | .err e lg tr => .err e lg (pre ++ tr)

/-- Terminal status of one motion goal as classified by `getResult`
(`TaskResult` of nav2_simple_commander). -/
inductive NavResult where
  | succeeded
  | canceled
  | failed
  | unknown
deriving DecidableEq, Repr

/-- What the mission thread observes during one iteration of a polling loop in
which `isTaskComplete()` returned `False`: the goal handle's
`is_cancel_requested` flag and the current value of
`self.found_poses[self.leg]`. -/
structure Tick where
  cancelRequested : Bool
  store : Option GeoPose
deriving DecidableEq, Repr

/-- Environment of one motion goal: the polling iterations observed before the
goal reports completion, and its terminal status. -/
structure MotionEnv where
  ticks : List Tick
  result : NavResult
deriving DecidableEq, Repr

/-- `found_check`: return `self.found_poses[self.leg]` when the current leg is
an aruco or object leg, `False` otherwise.  The stored value for the current
leg is the `store` argument (it is written concurrently by the perception
callbacks, modelled separately below). -/
def found_check (leg : String) (store : Option GeoPose) : Option GeoPose :=
  if leg ∈ arucoLegs ∨ leg ∈ objLegs then store else none

/-- Python's `abs` on rationals. -/
def ratAbs (q : ℚ) : ℚ := if q < 0 then -q else q

/-- The material-change test of the convergence loop:
`abs(pose.lat - dest.lat) > update_threshold or abs(pose.lon - dest.lon) > update_threshold`. -/
def materialChange (pose dest : GeoPose) : Bool :=
  decide (updateThreshold < ratAbs (pose.lat - dest.lat)) ||
  decide (updateThreshold < ratAbs (pose.lon - dest.lon))

/-- The material-change test lifted to the `Option` returned by `found_check`
(`none` stands for the Python `False`, on which the source would raise before
reaching the comparison). -/
def optMaterial (o : Option GeoPose) (dest : GeoPose) : Bool :=
  match o with
  | some p => materialChange p dest
  | none => false

/-- The feedback emitted after the `gps_nav` polling loop ends, from
`getResult()` (`UNKNOWN` emits nothing). -/
def navResultEvents (leg src : String) : NavResult → List Event
  | .succeeded => [.info leg ("GPS navigation completed" ++ src)]
  | .canceled => [.warn leg ("GPS navigation canceled" ++ src)]
  | .failed => [.error leg ("GPS navigation failed" ++ src)]
  | .unknown => []

/-- The polling loop of `gps_nav`.  Each `Tick` is one iteration where the
goal was not yet complete: check the cancel flag (cancel the goal and raise),
then in updating mode compare the tracked pose against the destination
(cancel, settle and return the improved pose on a material change), otherwise
return the first pose `found_check` reports (after cancelling the goal).
When the tick list is exhausted the goal has completed and the terminal status
is reported. -/
def gpsNavLoop (leg src : String) (dest : GeoPose) (updating : Bool)
    (result : NavResult) : List Tick → TRes (Option GeoPose)
  | [] => .ok none (navResultEvents leg src result)
  | t :: rest =>
    if t.cancelRequested then
      .err .canceled leg [.cancelGoal]
    else if updating then
      match found_check leg t.store with
      | none => .err .attributeError leg []
      | some pose =>
        if materialChange pose dest then
          .ok (some pose) [.info leg ("Improved GPS location found" ++ src), .cancelGoal]
        else
          gpsNavLoop leg src dest updating result rest
    else
      match found_check leg t.store with
      | some pose => .ok (some pose) [.cancelGoal]
      | none => gpsNavLoop leg src dest updating result rest

/-- `gps_nav`: emit the start feedback, dispatch on the configured path
planner (`basicPathPlanner` / `terrainPathPlanner` are the external
`plan_utils` strategies; any other name raises), submit the follow-waypoints
goal and run the polling loop.  The generated intermediate path and the mapviz
telemetry publications are external-collaborator output not modelled; the goal
is recorded by its destination. -/
def gps_nav (pathPlanner leg src : String) (dest : GeoPose) (updating : Bool)
    (env : MotionEnv) : TRes (Option GeoPose) :=
  let startEv := Event.info leg ("Starting GPS navigation" ++ src)
  if pathPlanner = "basicPathPlanner" ∨ pathPlanner = "terrainPathPlanner" then
    (gpsNavLoop leg src dest updating env.result env.ticks).withPre
      [startEv, .followGps dest]
  else
    .err (.invalidPathPlanner pathPlanner) leg [startEv]

/-- The feedback emitted after the `spin_search` polling loop ends. -/
def spinResultEvents (leg src : String) : NavResult → List Event
  | .succeeded => [.info leg ("Spin search completed" ++ src)]
  | .canceled => [.warn leg ("Spin search canceled" ++ src)]
  | .failed => [.error leg ("Spin search failed" ++ src)]
  | .unknown => []

/-- The polling loop of `spin_search`: check the cancel flag, then return the
first pose `found_check` reports (cancelling the spin goal). -/
def spinLoop (leg src : String) (result : NavResult) : List Tick → TRes (Option GeoPose)
  | [] => .ok none (spinResultEvents leg src result)
  | t :: rest =>
    if t.cancelRequested then
      .err .canceled leg [.cancelGoal]
    else
      match found_check leg t.store with
      | some pose => .ok (some pose) [.cancelGoal]
      | none => spinLoop leg src result rest

/-- `spin_search`: emit the start feedback, submit a spin goal with
`spin_dist=3.14`, and run the polling loop. -/
def spin_search (leg src : String) (env : MotionEnv) : TRes (Option GeoPose) :=
  (spinLoop leg src env.result env.ticks).withPre
    [.info leg ("Starting spin search" ++ src), .spinGoal (157/50)]

/-- One hex-pattern vertex:
`base + coord * hex_scalar` componentwise, as computed in `hex_search`. -/
def hexVertex (base : GeoPose) (c : ℚ × ℚ) : GeoPose :=
  ⟨base.lat + c.1 * hexScalar, base.lon + c.2 * hexScalar⟩

/-- Environment of one `hex_search` call: a motion environment for the
navigation and for the spin search at each vertex index. -/
structure HexEnv where
  nav : Nat → MotionEnv
  spin : Nat → MotionEnv

/-- Waypoint lookup `for wp in self.wps: if wp["leg"] == leg: ... = wp`
(the last matching entry wins, as in the Python loop). -/
def lookupWp (wps : List Waypoint) (leg : String) : Option GeoPose :=
  wps.foldl (fun acc wp => if wp.leg = leg then some ⟨wp.latitude, wp.longitude⟩ else acc) none

/-- The `for i, coord in enumerate(self.hex_coord)` loop of `hex_search`:
navigate to vertex `i` (checking the detection store each tick via `gps_nav`),
then spin-search there; the first pose found is returned immediately. -/
def hexLoop (pathPlanner leg : String) (base : GeoPose) (env : HexEnv) :
    Nat → List (ℚ × ℚ) → TRes (Option GeoPose)
  | _, [] => .ok none [.info leg "Hex search completed"]
  | i, c :: rest =>
    let wp := hexVertex base c
    match gps_nav pathPlanner leg (" (hex " ++ toString i ++ ")") wp false (env.nav i) with
    | .err e lg tr => .err e lg tr
    | .ok (some p) tr => .ok (some p) tr
    | .ok none tr1 =>
      match spin_search leg (" (hex " ++ toString i ++ ")") (env.spin i) with
      | .err e lg tr2 => .err e lg (tr1 ++ tr2)
      | .ok (some p) tr2 => .ok (some p) (tr1 ++ tr2)
      | .ok none tr2 =>
        (hexLoop pathPlanner leg base env (i + 1) rest).withPre (tr1 ++ tr2)

/-- `hex_search`: look up the leg's base waypoint (an unbound `base_wp` —
no matching entry — would raise `NameError`) and sweep the hex pattern. -/
def hex_search (pathPlanner leg : String) (wps : List Waypoint) (env : HexEnv) :
    TRes (Option GeoPose) :=
  match lookupWp wps leg with
  | some base =>
    (hexLoop pathPlanner leg base env 0 hexCoord).withPre [.info leg "Starting hex search"]
  | none => .err .nameError leg [.info leg "Starting hex search"]

/-- The leg-type dispatch at the top of `exec_leg`: the validity check
`leg in gps_legs or leg in aruco_legs or leg in obj_legs` together with the
`print_string` elif chain. -/
def legKind (leg : String) : Option String :=
  if leg ∈ gpsLegs then some "GPS waypoint"
  else if leg ∈ arucoLegs then some "aruco tag"
  else if leg ∈ objLegs then some "object"
  else none

/-- The arrival block shared by every successful leg: flash the LED feedback,
trigger the arrival state, dwell `wait_time` seconds, trigger the autonomy
state. -/
def arrivalEvents (leg : String) : List Event :=
  [.info leg "Flashing LED to indicate arrival", .triggerArrival, .triggerAuto]

/-- Environment of one `exec_leg` call: motion environments for the direct
navigation, the spin search, the hex search, and one per navigation attempt of
the convergence loop. -/
structure LegEnv where
  nav : MotionEnv
  spin : MotionEnv
  hex : HexEnv
  conv : List MotionEnv

/-- The `while found_loc: found_loc = self.gps_nav(found_loc, ..., updating=True)`
convergence loop of `exec_leg`, one environment entry per navigation attempt.
An exhausted environment raises the model-artifact error `outOfEnv`. -/
def convergenceLoop (pathPlanner leg src : String) :
    GeoPose → List MotionEnv → TRes Unit
  | _, [] => .err .outOfEnv leg []
  | pose, e :: rest =>
    match gps_nav pathPlanner leg src pose true e with
    | .err er lg tr => .err er lg tr
    | .ok none tr => .ok () tr
    | .ok (some p) tr => (convergenceLoop pathPlanner leg src p rest).withPre tr

/-- The search-escalation chain of `exec_leg` for target legs: keep the pose
found during direct navigation, otherwise spin-search, otherwise hex-search. -/
def searchStage (pathPlanner leg : String) (wps : List Waypoint)
    (found0 : Option GeoPose) (env : LegEnv) : TRes (Option GeoPose) :=
  match found0 with
  | some p => .ok (some p) []
  | none =>
    match spin_search leg "" env.spin with
    | .err e lg tr => .err e lg tr
    | .ok (some p) tr => .ok (some p) tr
    | .ok none tr1 => (hex_search pathPlanner leg wps env.hex).withPre tr1

/-- The target-leg tail of `exec_leg`: search escalation, then either the
`Could not find` error return, or the found feedback, the convergence loop and
the arrival block. -/
def targetPhase (pathPlanner leg ps : String) (wps : List Waypoint)
    (env : LegEnv) (found0 : Option GeoPose) : TRes Unit :=
  match searchStage pathPlanner leg wps found0 env with
  | .err e lg tr => .err e lg tr
  | .ok none tr => .ok () (tr ++ [.error leg ("Could not find the " ++ ps)])
  | .ok (some p) tr =>
    let foundEv := Event.info leg ("Found the " ++ ps ++ "!")
    match convergenceLoop pathPlanner leg (" (" ++ ps ++ ")") p env.conv with
    | .err e lg tr2 => .err e lg (tr ++ foundEv :: tr2)
    | .ok () tr2 =>
      .ok () (tr ++ foundEv :: tr2 ++
        .info leg ("SUCCESS! Found and navigated to " ++ ps) :: arrivalEvents leg)

/-- `exec_leg`: validate the leg type, look up its waypoint (error return if
missing), navigate directly while watching for detections, then for target
legs run the search escalation and convergence loop; every successful leg ends
with the arrival block.  `self.leg` is set to the executing leg for the whole
call. -/
def exec_leg (pathPlanner : String) (wps : List Waypoint) (leg : String)
    (env : LegEnv) : TRes Unit :=
  match legKind leg with
  | none => .ok () [.error leg ("Invalid leg type provided:" ++ leg)]
  | some ps =>
    let startEv := Event.info leg ("Starting " ++ ps ++ " leg")
    match lookupWp wps leg with
    | none => .ok () [startEv, .error leg "No GPS waypoint found for leg"]
    | some legWp =>
      match gps_nav pathPlanner leg "" legWp false env.nav with
      | .err e lg tr => .err e lg (startEv :: tr)
      | .ok found0 tr0 =>
        if leg ∈ arucoLegs ∨ leg ∈ objLegs then
          (targetPhase pathPlanner leg ps wps env found0).withPre (startEv :: tr0)
        else
          .ok () (startEv :: tr0 ++
            .info leg ("SUCCESS! Navigated to " ++ ps) :: arrivalEvents leg)

/-- The wait-for-GPS-fix loop at the top of `exec_autonomy_task`: one `Bool`
per one-second tick without a fix, giving the goal handle's
`is_cancel_requested` flag at that tick; the fix arrives when the list ends.
`outstanding` tells whether a `result_future` exists for `cancelTask` to
cancel (on a freshly started executor it does not). -/
def gpsFixWait (leg : String) (outstanding : Bool) : List Bool → TRes Unit
  | [] => .ok () []
  | c :: rest =>
    let warnEv := Event.warn leg "Waiting on a GPS fix..."
    if c then
      .err .canceled leg (warnEv :: if outstanding then [.cancelGoal] else [])
    else
      (gpsFixWait leg outstanding rest).withPre [warnEv]

/-- Modelled from the spec: `noOrderPlanner` lives in
`rover_navigation.utils.plan_utils`, which is not part of the sources; per the
comment at its import site in `task_executor.py` ("don't reorder the legs") it
returns the legs unchanged. -/
def noOrderPlanner (legs : List String) : List String := legs

/-- Python `repr` of a list of strings, as produced by
`str(self.legs)` in the leg-order feedback. -/
def pyListRepr (xs : List String) : String :=
  "[" ++ String.intercalate ", " (xs.map (fun s => "'" ++ s ++ "'")) ++ "]"

/-- Environment of one `exec_autonomy_task` call. -/
structure TaskEnv where
  fixTicks : List Bool
  outstanding : Bool
  legEnvs : Nat → LegEnv

/-- The `for leg in self.legs: self.exec_leg(leg)` loop; leg `i` consumes
environment `legEnvs i`; a raised exception aborts the remaining legs. -/
def execLegs (pathPlanner : String) (wps : List Waypoint) (envs : Nat → LegEnv) :
    List String → TRes Unit
  | [] => .ok () []
  | l :: rest =>
    match exec_leg pathPlanner wps l (envs 0) with
    | .err e lg tr => .err e lg tr
    | .ok () tr =>
      (execLegs pathPlanner wps (fun i => envs (i + 1)) rest).withPre tr

/-- The `if/elif` chain selecting `self.order_planner`: the three external
`plan_utils` strategies are passed in as opaque reorderings; `noOrderPlanner`
is the identity; an unknown name yields `none` (the raise site). -/
def orderDispatch (name : String) (bruteP greedyP terrainP : List String → List String)
    (legs : List String) : Option (List String) :=
  if name = "bruteOrderPlanner" then some (bruteP legs)
  else if name = "greedyOrderPlanner" then some (greedyP legs)
  else if name = "terrainOrderPlanner" then some (terrainP legs)
  else if name = "noOrderPlanner" then some (noOrderPlanner legs)
  else none

/-- The feedback emitted when `exec_autonomy_task` starts. -/
def taskStartEvents : List Event := [.info "start" "Autonomy task execution started"]

/-- The planner-announcement feedback of `exec_autonomy_task`. -/
def plannerEvents (orderPlanner pathPlanner : String) : List Event :=
  [.info "start"
      ("Using order planner: " ++ orderPlanner ++ " and path planner: " ++ pathPlanner),
   .info "start" "Please review the leg order plan (exit matplotlib to continue)"]

/-- The planned-leg-order feedback of `exec_autonomy_task`
(`str(self.legs)` is the Python list repr). -/
def legOrderEvents (legs : List String) : List Event :=
  [.info "start" ("Determined best leg order: " ++ pyListRepr legs)]

/-- `exec_autonomy_task`: wait for a GPS fix, announce the planners, dispatch
on the configured order planner (an unknown name raises), wait for Nav2
(no task feedback), then execute the legs in the planned order.  `self.leg`
is `"start"` until the first leg and `"end"` after the last. -/
def exec_autonomy_task (orderPlanner pathPlanner : String)
    (bruteP greedyP terrainP : List String → List String)
    (wps : List Waypoint) (legs0 : List String) (env : TaskEnv) : TRes Unit :=
  match gpsFixWait "start" env.outstanding env.fixTicks with
  | .err e lg tr => .err e lg (taskStartEvents ++ tr)
  | .ok () tr1 =>
    match orderDispatch orderPlanner bruteP greedyP terrainP legs0 with
    | none =>
      .err (.invalidOrderPlanner orderPlanner) "start"
        (taskStartEvents ++ tr1 ++ plannerEvents orderPlanner pathPlanner)
    | some legs =>
      match execLegs pathPlanner wps env.legEnvs legs with
      | .err e lg tr =>
        .err e lg (taskStartEvents ++ tr1 ++ plannerEvents orderPlanner pathPlanner ++
          legOrderEvents legs ++ tr)
      | .ok () tr =>
        .ok () (taskStartEvents ++ tr1 ++ plannerEvents orderPlanner pathPlanner ++
          legOrderEvents legs ++ tr ++
          [Event.info "end" "Autonomy task execution completed"])

/-- Terminal state the `RunTask` goal handle is driven to: the callback only
ever calls `succeed()` or `abort()`. -/
inductive GoalOutcome where
  | succeeded
  | aborted
deriving DecidableEq, Repr

/-- What the `RunTask` action client receives: the result message, the goal's
terminal state, and the stream of events/feedback emitted during the run. -/
structure RunTaskResult where
  msg : String
  outcome : GoalOutcome
  trace : List Event
deriving DecidableEq, Repr

/-- `action_server_callback`: reset state, read the requested legs (an empty
set aborts immediately, before any mode switch), trigger the autonomy state,
run the task under a catch-all handler, and finally trigger the teleop state.
The waypoint file has already been parsed into `wps`. -/
def action_server_callback (orderPlanner pathPlanner : String)
    (bruteP greedyP terrainP : List String → List String)
    (wps : List Waypoint) (legs : List String) (env : TaskEnv) : RunTaskResult :=
  if legs = [] then
    { msg := "Well that was less-than-interstellar of you"
      outcome := .aborted
      trace := [.fatal "start" "No task legs provided"] }
  else
    match exec_autonomy_task orderPlanner pathPlanner bruteP greedyP terrainP wps legs env with
    | .ok () tr =>
      { msg := "One small step for a rover, one giant leap for roverkind"
        outcome := .succeeded
        trace := .triggerAuto :: tr ++ [.triggerTeleop] }
    | .err e lg tr =>
      { msg := "It was the aliens, I'm telling you"
        outcome := .aborted
        trace := .triggerAuto :: tr ++ [.fatal lg e.toMessage, .triggerTeleop] }

/-- One aruco marker of an `ArucoDetection` message, paired with the outcome
of the external `pose_to_geopose` conversion (tf2 + UTM; a failed conversion
returns `False` and the detection is dropped). -/
structure ArucoMarker where
  markerId : Nat
  conv : Option GeoPose
deriving DecidableEq, Repr

/-- One object of an `ObjectsStamped` message, paired with the outcome of the
external `pose_to_geopose` conversion of its position. -/
structure ObjDet where
  label : String
  conv : Option GeoPose
deriving DecidableEq, Repr

/-- Python's substring test `sub in s` on strings: some contiguous run of
`s`'s characters equals `sub`. -/
def strIn (sub s : String) : Bool :=
  (List.range (s.length + 1)).any
    (fun i => ((s.data.drop i).take sub.data.length) == sub.data)

/-- The body of the `for marker in msg.markers` loop of `aruco_callback`: a
marker whose id equals `self.tags[self.leg]` and whose pose converts
successfully overwrites `self.found_poses[self.leg]`. -/
def arucoStep (leg : String) (st : String → Option GeoPose) (marker : ArucoMarker) :
    String → Option GeoPose :=
  if tagsLookup leg = some marker.markerId then
    match marker.conv with
    | some pose => fun k => if k = leg then some pose else st k
    | none => st
  else st

/-- `aruco_callback`: when the current leg is an aruco leg, fold the marker
loop over the message (the store is modelled as a total map from label to
optional pose). -/
def aruco_callback (leg : String) (store : String → Option GeoPose)
    (markers : List ArucoMarker) : String → Option GeoPose :=
  if leg ∈ arucoLegs then markers.foldl (arucoStep leg) store else store

/-- The body of the `for obj in msg.objects` loop of `obj_callback`: an
object whose label is a substring of the leg name (`obj.label in self.leg`)
and whose position converts successfully overwrites
`self.found_poses[self.leg]`. -/
def objStep (leg : String) (st : String → Option GeoPose) (obj : ObjDet) :
    String → Option GeoPose :=
  if strIn obj.label leg then
    match obj.conv with
    | some pose => fun k => if k = leg then some pose else st k
    | none => st
  else st

/-- `obj_callback`: when the current leg is an object leg, fold the object
loop over the message. -/
def obj_callback (leg : String) (store : String → Option GeoPose)
    (objs : List ObjDet) : String → Option GeoPose :=
  if leg ∈ objLegs then objs.foldl (objStep leg) store else store

/-- One perception-callback invocation, tagged with the value of `self.leg`
the callback thread observed. -/
inductive CbCall where
  | aruco (leg : String) (markers : List ArucoMarker)
  | obj (leg : String) (objs : List ObjDet)
deriving DecidableEq, Repr

/-- The current-leg tag of a callback invocation. -/
def CbCall.leg : CbCall → String
  | .aruco l _ => l
  | .obj l _ => l

/-- Apply one perception-callback invocation to the `found_poses` store. -/
def applyCb (store : String → Option GeoPose) : CbCall → (String → Option GeoPose)
  | .aruco l markers => aruco_callback l store markers
  | .obj l objs => obj_callback l store objs

/-- Run a sequence of perception-callback invocations over the store. -/
def runCallbacks (store : String → Option GeoPose) :
    List CbCall → (String → Option GeoPose)
  | [] => store
  | c :: rest => runCallbacks (applyCb store c) rest

/-- A motion goal that completes successfully before the first polling tick,
with no cancel request and no detection observed. -/
def quietMotion : MotionEnv := ⟨[], .succeeded⟩

/-- A hex environment in which every vertex navigation and spin completes
without any detection. -/
def quietHexEnv : HexEnv := ⟨fun _ => quietMotion, fun _ => quietMotion⟩

/-- A leg environment in which every motion goal completes without incident
and the convergence loop (if entered) converges on its first attempt. -/
def quietLegEnv : LegEnv :=
  { nav := quietMotion, spin := quietMotion, hex := quietHexEnv, conv := [quietMotion] }

/-- A hex environment in which every navigation is quiet and the spin search
at vertex `k` observes `found` on its first tick. -/
def hexDetectEnv (k : Nat) (found : GeoPose) : HexEnv :=
  { nav := fun _ => quietMotion
    spin := fun i => if i = k then ⟨[⟨false, some found⟩], .succeeded⟩ else quietMotion }

/-- The destination of a follow-waypoints goal event, if the event is one. -/
def destOf : Event → Option GeoPose
  | .followGps d => some d
  | _ => none

/-- The sequence of navigation destinations appearing in a result's trace. -/
def visited {α : Type} (r : TRes α) : List GeoPose :=
  r.trace.filterMap destOf

/-- Does this event witness that a search routine ran?  `spin_search` always
emits its spin goal, and `hex_search` always emits its (suffix-free) start
feedback, so a trace is search-free iff it has no such event. -/
def isSearchEvent : Event → Bool
  | .spinGoal _ => true
  | .info _ m => m == "Starting hex search"
  | _ => false

/-- Waypoint table used by the concrete end-to-end scenarios: `gps1` and
`aruco1`, 0.001 degrees apart. -/
def scenarioWps : List Waypoint :=
  [⟨"gps1", 40, -111⟩, ⟨"aruco1", 40001/1000, -(111001/1000)⟩]

/-- The aruco tag pose reported during the scenarios: 0.00002 degrees north of
`aruco1`'s nominal waypoint. -/
def scenarioFound : GeoPose := ⟨40001/1000 + 1/50000, -(111001/1000)⟩

/-- Per-leg environment of the two-leg end-to-end scenario: `gps1` is a plain
successful navigation; `aruco1` navigates without detection, finds the tag on
the first spin-search tick, and its single convergence attempt completes with
no further material change. -/
def twoLegEnvs : Nat → LegEnv
  | 0 => quietLegEnv
  | 1 =>
    { nav := quietMotion
      spin := ⟨[⟨false, some scenarioFound⟩], .succeeded⟩
      hex := quietHexEnv
      conv := [⟨[⟨false, some scenarioFound⟩], .succeeded⟩] }
  | _ => quietLegEnv

/-- The two-leg end-to-end scenario: legs `["gps1", "aruco1"]`, no reordering,
basic path planner, GPS fix available at start. -/
def twoLegRun : RunTaskResult :=
  action_server_callback "noOrderPlanner" "basicPathPlanner" id id id
    scenarioWps ["gps1", "aruco1"] ⟨[], false, twoLegEnvs⟩

/-- Environment of the cancellation scenario: `aruco1` navigates without
detection, then the action client's cancel request is observed on the first
spin-search tick. -/
def cancelLegEnvs : Nat → LegEnv
  | 0 =>
    { nav := quietMotion
      spin := ⟨[⟨true, none⟩], .succeeded⟩
      hex := quietHexEnv
      conv := [quietMotion] }
  | _ => quietLegEnv

/-- The cancellation scenario: a single `aruco1` leg whose spin search is
interrupted by the action client's cancel request. -/
def cancelRun : RunTaskResult :=
  action_server_callback "noOrderPlanner" "basicPathPlanner" id id id
    scenarioWps ["aruco1"] ⟨[], false, cancelLegEnvs⟩

/-- An internal-failure run: same mission, but with an invalid path planner
name, so the first navigation raises. -/
def failRun : RunTaskResult :=
  action_server_callback "noOrderPlanner" "wrongPathPlanner" id id id
    scenarioWps ["aruco1"] ⟨[], false, cancelLegEnvs⟩

/-- The empty-leg-set run: the mission aborts before any mode switch. -/
def emptyLegsRun : RunTaskResult :=
  action_server_callback "noOrderPlanner" "basicPathPlanner" id id id
    scenarioWps [] ⟨[], false, twoLegEnvs⟩

/-- A mission whose first leg has no waypoint-table entry: legs
`["gps1", "gps2"]` over a table that only knows `gps2`. -/
def missingWpRun : RunTaskResult :=
  action_server_callback "noOrderPlanner" "basicPathPlanner" id id id
    [⟨"gps2", 40, -111⟩] ["gps1", "gps2"] ⟨[], false, fun _ => quietLegEnv⟩

/-- Does this event witness that the hex sweep started? -/
def isHexStart : Event → Bool
  | .info _ m => m == "Starting hex search"
  | _ => false

/-- A `found_poses` store with no recorded pose. -/
def emptyStore : String → Option GeoPose := fun _ => none

/-- C1 counterexample: the claim says a leg-level error (here: a missing
waypoint for leg `gps1`) aborts the entire mission and no later leg runs; in
the code `exec_leg` merely reports the error and returns, the next leg `gps2`
executes in full, and the mission even reports success. -/
theorem mission_continues_after_leg_error :
    missingWpRun.outcome = GoalOutcome.succeeded ∧
    Event.error "gps1" "No GPS waypoint found for leg" ∈ missingWpRun.trace ∧
    Event.info "gps2" "SUCCESS! Navigated to GPS waypoint" ∈ missingWpRun.trace ∧
    Event.triggerArrival ∈ missingWpRun.trace := by
  decide

/-- C2 counterexample: on the empty-leg-set exit path the callback returns its
aborted result without ever calling the teleop trigger (nor the autonomy
trigger), contradicting the claim that the manual switch happens exactly once
on every exit path including this one. -/
theorem no_teleop_on_empty_legs :
    emptyLegsRun.outcome = GoalOutcome.aborted ∧
    emptyLegsRun.trace.count Event.triggerTeleop = 0 ∧
    emptyLegsRun.trace.count Event.triggerAuto = 0 := by
  decide

/-- C3 counterexample: a mission canceled by the action client terminates via
`task_goal_handle.abort()` with the same result message as an internal
failure — the terminal result is an abort, not a distinct cancellation. -/
theorem cancel_reported_as_abort :
    cancelRun.outcome = GoalOutcome.aborted ∧
    cancelRun.msg = "It was the aliens, I'm telling you" ∧
    cancelRun.outcome = failRun.outcome ∧
    cancelRun.msg = failRun.msg := by
  decide

/-- C3 amended: cancellation unwinds as an exception through the one shared
cleanup path — exactly one motion-goal cancellation, exactly one teleop
switch, no hex sweep — and is distinguishable from an internal failure only
in the fatal feedback text, while the terminal result is the same abort. -/
theorem cancel_abort_cleanup :
    cancelRun.outcome = GoalOutcome.aborted ∧
    Event.fatal "aruco1" "Task execution canceled by action client" ∈ cancelRun.trace ∧
    cancelRun.trace.count Event.cancelGoal = 1 ∧
    cancelRun.trace.count Event.triggerTeleop = 1 ∧
    cancelRun.trace.filter isHexStart = [] ∧
    Event.fatal "aruco1" "Task execution canceled by action client" ∉ failRun.trace := by
  decide

/-- C5 counterexample: in the two-leg end-to-end scenario the executor issues
three autonomy-mode switches (one at mission start plus one at the end of each
leg), not the claimed two. -/
theorem two_leg_scenario_not_two_auto :
    twoLegRun.outcome = GoalOutcome.succeeded ∧
    ¬ twoLegRun.trace.count Event.triggerAuto = 2 := by
  with_unfolding_all decide

/-- C5 amended: the two-leg scenario succeeds with exactly two arrival-mode
switches, three autonomy-mode switches (one initial + one per leg), and one
final teleop switch, the teleop switch being the last event. -/
theorem two_leg_scenario_counts :
    twoLegRun.outcome = GoalOutcome.succeeded ∧
    twoLegRun.msg = "One small step for a rover, one giant leap for roverkind" ∧
    twoLegRun.trace.count Event.triggerArrival = 2 ∧
    twoLegRun.trace.count Event.triggerAuto = 3 ∧
    twoLegRun.trace.count Event.triggerTeleop = 1 ∧
    twoLegRun.trace.getLast? = some Event.triggerTeleop := by
  with_unfolding_all decide

/-- C4 counterexample: the wait-for-GPS-fix polling loop sleeps a full second
per tick (not ~100 ms), and on observing the cancel request it issues no
cancellation to any motion goal (none is outstanding), contradicting the
claim's uniform one-tick/one-cancellation behaviour for every polling loop. -/
theorem gps_fix_loop_counterexample :
    gpsFixSleepMs = 1000 ∧
    ¬ gpsFixSleepMs = 100 ∧
    gpsFixWait "start" false [true] =
      TRes.err TaskError.canceled "start" [Event.warn "start" "Waiting on a GPS fix..."] ∧
    (gpsFixWait "start" false [true]).trace.count Event.cancelGoal = 0 := by
  decide

/-- Prepending events prepends to the trace. -/
theorem trace_withPre {α : Type} (pre : List Event) (r : TRes α) :
    (r.withPre pre).trace = pre ++ r.trace := by
  cases r <;> rfl

/-- The result-report feedback of `gps_nav` never contains a teleop switch. -/
theorem teleop_not_navResultEvents (leg src : String) (res : NavResult) :
    Event.triggerTeleop ∉ navResultEvents leg src res := by
  cases res <;> simp [navResultEvents]

/-- The result-report feedback of `spin_search` never contains a teleop switch. -/
theorem teleop_not_spinResultEvents (leg src : String) (res : NavResult) :
    Event.triggerTeleop ∉ spinResultEvents leg src res := by
  cases res <;> simp [spinResultEvents]

/-- The `gps_nav` polling loop never emits a teleop switch. -/
theorem teleop_not_gpsNavLoop (leg src : String) (dest : GeoPose) (u : Bool)
    (res : NavResult) :
    ∀ ticks, Event.triggerTeleop ∉ (gpsNavLoop leg src dest u res ticks).trace := by
  intro ticks
  induction ticks with
  | nil => simpa [gpsNavLoop, TRes.trace] using teleop_not_navResultEvents leg src res
  | cons t rest ih =>
    simp only [gpsNavLoop]
    split
    · simp [TRes.trace]
    · split
      · rcases h : found_check leg t.store with _ | p <;> simp only [h]
        · simp [TRes.trace]
        · split
          · simp [TRes.trace]
          · exact ih
      · rcases h : found_check leg t.store with _ | p <;> simp only [h]
        · exact ih
        · simp [TRes.trace]

/-- `gps_nav` never emits a teleop switch. -/
theorem teleop_not_gps_nav (pp leg src : String) (dest : GeoPose) (u : Bool)
    (env : MotionEnv) :
    Event.triggerTeleop ∉ (gps_nav pp leg src dest u env).trace := by
  simp only [gps_nav]
  split
  · rw [trace_withPre]
    simp only [List.mem_append]
    rintro (h | h)
    · simp at h
    · exact teleop_not_gpsNavLoop leg src dest u env.result env.ticks h
  · simp [TRes.trace]

/-- The `spin_search` polling loop never emits a teleop switch. -/
theorem teleop_not_spinLoop (leg src : String) (res : NavResult) :
    ∀ ticks, Event.triggerTeleop ∉ (spinLoop leg src res ticks).trace := by
  intro ticks
  induction ticks with
  | nil => simpa [spinLoop, TRes.trace] using teleop_not_spinResultEvents leg src res
  | cons t rest ih =>
    simp only [spinLoop]
    split
    · simp [TRes.trace]
    · rcases h : found_check leg t.store with _ | p <;> simp only [h]
      · exact ih
      · simp [TRes.trace]

/-- `spin_search` never emits a teleop switch. -/
theorem teleop_not_spin_search (leg src : String) (env : MotionEnv) :
    Event.triggerTeleop ∉ (spin_search leg src env).trace := by
  simp only [spin_search]
  rw [trace_withPre]
  simp only [List.mem_append]
  rintro (h | h)
  · simp at h
  · exact teleop_not_spinLoop leg src env.result env.ticks h

/-- The hex sweep loop never emits a teleop switch. -/
theorem teleop_not_hexLoop (pp leg : String) (base : GeoPose) (env : HexEnv) :
    ∀ cs i, Event.triggerTeleop ∉ (hexLoop pp leg base env i cs).trace := by
  intro cs
  induction cs with
  | nil => intro i; simp [hexLoop, TRes.trace]
  | cons c rest ih =>
    intro i
    have hnav := teleop_not_gps_nav pp leg (" (hex " ++ toString i ++ ")")
      (hexVertex base c) false (env.nav i)
    have hspin := teleop_not_spin_search leg (" (hex " ++ toString i ++ ")") (env.spin i)
    simp only [hexLoop]
    rcases h1 : gps_nav pp leg (" (hex " ++ toString i ++ ")") (hexVertex base c) false
        (env.nav i) with ⟨v1, tr1⟩ | ⟨e1, lg1, tr1⟩
    · rw [h1] at hnav
      rcases v1 with _ | p1
      · rcases h2 : spin_search leg (" (hex " ++ toString i ++ ")") (env.spin i) with
          ⟨v2, tr2⟩ | ⟨e2, lg2, tr2⟩
        · rw [h2] at hspin
          rcases v2 with _ | p2
          · rw [trace_withPre]
            simp only [List.mem_append, TRes.trace] at *
            rintro ((h | h) | h)
            · exact hnav h
            · exact hspin h
            · exact ih (i + 1) h
          · simp only [TRes.trace, List.mem_append] at *
            rintro (h | h)
            · exact hnav h
            · exact hspin h
        · rw [h2] at hspin
          simp only [TRes.trace, List.mem_append] at *
          rintro (h | h)
          · exact hnav h
          · exact hspin h
      · simpa [TRes.trace] using hnav
    · rw [h1] at hnav
      simpa [TRes.trace] using hnav

/-- `hex_search` never emits a teleop switch. -/
theorem teleop_not_hex_search (pp leg : String) (wps : List Waypoint) (env : HexEnv) :
    Event.triggerTeleop ∉ (hex_search pp leg wps env).trace := by
  simp only [hex_search]
  rcases lookupWp wps leg with _ | base
  · simp [TRes.trace]
  · rw [trace_withPre]
    simp only [List.mem_append]
    rintro (h | h)
    · simp at h
    · exact teleop_not_hexLoop pp leg base env hexCoord 0 h

/-- The convergence loop never emits a teleop switch. -/
theorem teleop_not_convergenceLoop (pp leg src : String) :
    ∀ envs pose, Event.triggerTeleop ∉ (convergenceLoop pp leg src pose envs).trace := by
  intro envs
  induction envs with
  | nil => intro pose; simp [convergenceLoop, TRes.trace]
  | cons e rest ih =>
    intro pose
    have hnav := teleop_not_gps_nav pp leg src pose true e
    simp only [convergenceLoop]
    rcases h1 : gps_nav pp leg src pose true e with ⟨v1, tr1⟩ | ⟨e1, lg1, tr1⟩
    · rw [h1] at hnav
      rcases v1 with _ | p1
      · simpa [TRes.trace] using hnav
      · rw [trace_withPre]
        simp only [List.mem_append, TRes.trace] at *
        rintro (h | h)
        · exact hnav h
        · exact ih p1 h
    · rw [h1] at hnav
      simpa [TRes.trace] using hnav

/-- The search-escalation chain never emits a teleop switch. -/
theorem teleop_not_searchStage (pp leg : String) (wps : List Waypoint)
    (found0 : Option GeoPose) (env : LegEnv) :
    Event.triggerTeleop ∉ (searchStage pp leg wps found0 env).trace := by
  simp only [searchStage]
  rcases found0 with _ | p0
  · have hspin := teleop_not_spin_search leg "" env.spin
    rcases h1 : spin_search leg "" env.spin with ⟨v1, tr1⟩ | ⟨e1, lg1, tr1⟩
    · rw [h1] at hspin
      rcases v1 with _ | p1
      · rw [trace_withPre]
        simp only [List.mem_append, TRes.trace] at *
        rintro (h | h)
        · exact hspin h
        · exact teleop_not_hex_search pp leg wps env.hex h
      · simpa [TRes.trace] using hspin
    · rw [h1] at hspin
      simpa [TRes.trace] using hspin
  · simp [TRes.trace]

/-- The target-leg phase never emits a teleop switch. -/
theorem teleop_not_targetPhase (pp leg ps : String) (wps : List Waypoint)
    (env : LegEnv) (found0 : Option GeoPose) :
    Event.triggerTeleop ∉ (targetPhase pp leg ps wps env found0).trace := by
  have hss := teleop_not_searchStage pp leg wps found0 env
  unfold targetPhase
  split
  next e1 lg1 tr1 heq =>
    rw [heq] at hss
    simpa [TRes.trace] using hss
  next tr1 heq =>
    rw [heq] at hss
    simp only [TRes.trace] at hss
    intro h
    simp [TRes.trace] at h
    exact hss h
  next p1 tr1 heq =>
    rw [heq] at hss
    simp only [TRes.trace] at hss
    have hcv := teleop_not_convergenceLoop pp leg (" (" ++ ps ++ ")") env.conv p1
    split
    next e2 lg2 tr2 heq2 =>
      rw [heq2] at hcv
      simp only [TRes.trace] at hcv
      intro h
      simp [TRes.trace] at h
      rcases h with h | h
      · exact hss h
      · exact hcv h
    next tr2 heq2 =>
      rw [heq2] at hcv
      simp only [TRes.trace] at hcv
      intro h
      simp [TRes.trace, arrivalEvents] at h
      rcases h with h | h
      · exact hss h
      · exact hcv h

/-- `exec_leg` never emits a teleop switch. -/
theorem teleop_not_exec_leg (pp : String) (wps : List Waypoint) (leg : String)
    (env : LegEnv) :
    Event.triggerTeleop ∉ (exec_leg pp wps leg env).trace := by
  unfold exec_leg
  split
  · simp [TRes.trace]
  next ps hk =>
    split
    · simp [TRes.trace]
    next legWp hw =>
      have hnav := teleop_not_gps_nav pp leg "" legWp false env.nav
      split
      next e1 lg1 tr1 heq =>
        rw [heq] at hnav
        simp only [TRes.trace] at hnav
        intro h
        simp [TRes.trace] at h
        exact hnav h
      next found0 tr0 heq =>
        rw [heq] at hnav
        simp only [TRes.trace] at hnav
        split
        · have htp := teleop_not_targetPhase pp leg ps wps env found0
          rw [trace_withPre]
          intro h
          simp [TRes.trace] at h
          rcases h with h | h
          · exact hnav h
          · exact htp h
        · intro h
          simp [TRes.trace, arrivalEvents] at h
          exact hnav h

/-- The wait-for-GPS-fix loop never emits a teleop switch. -/
theorem teleop_not_gpsFixWait (leg : String) (outstanding : Bool) :
    ∀ ticks, Event.triggerTeleop ∉ (gpsFixWait leg outstanding ticks).trace := by
  intro ticks
  induction ticks with
  | nil => simp [gpsFixWait, TRes.trace]
  | cons c rest ih =>
    simp only [gpsFixWait]
    split
    · rcases outstanding <;> simp [TRes.trace]
    · rw [trace_withPre]
      simp only [List.mem_append]
      rintro (h | h)
      · simp at h
      · exact ih h

/-- The leg loop never emits a teleop switch. -/
theorem teleop_not_execLegs (pp : String) (wps : List Waypoint) :
    ∀ legs envs, Event.triggerTeleop ∉ (execLegs pp wps envs legs).trace := by
  intro legs
  induction legs with
  | nil => intro envs; simp [execLegs, TRes.trace]
  | cons l rest ih =>
    intro envs
    have hl := teleop_not_exec_leg pp wps l (envs 0)
    simp only [execLegs]
    split
    next e1 lg1 tr1 heq =>
      rw [heq] at hl
      simpa [TRes.trace] using hl
    next tr1 heq =>
      rw [heq] at hl
      rw [trace_withPre]
      simp only [TRes.trace, List.mem_append] at *
      rintro (h | h)
      · exact hl h
      · exact ih (fun i => envs (i + 1)) h

/-- `exec_autonomy_task` never emits a teleop switch: the only teleop trigger
in the executor is the final one in `action_server_callback`. -/
theorem teleop_not_exec_autonomy_task (op pp : String)
    (bruteP greedyP terrainP : List String → List String)
    (wps : List Waypoint) (legs0 : List String) (env : TaskEnv) :
    Event.triggerTeleop ∉
      (exec_autonomy_task op pp bruteP greedyP terrainP wps legs0 env).trace := by
  have hfix := teleop_not_gpsFixWait "start" env.outstanding env.fixTicks
  unfold exec_autonomy_task
  split
  next e1 lg1 tr1 heq =>
    rw [heq] at hfix
    simp only [TRes.trace, List.mem_append, taskStartEvents, List.mem_cons] at *
    rintro (h | h)
    · simp at h
    · exact hfix h
  next tr1 heq =>
    rw [heq] at hfix
    split
    · simp only [TRes.trace, List.mem_append, taskStartEvents, plannerEvents,
        List.mem_cons] at *
      rintro ((h | h) | h | h | h)
      · simp at h
      · exact hfix h
      · simp at h
      · simp at h
      · simp at h
    next legs heq2 =>
      have hlegs := teleop_not_execLegs pp wps legs env.legEnvs
      split
      next e2 lg2 tr2 heq3 =>
        rw [heq3] at hlegs
        simp only [TRes.trace, List.mem_append, taskStartEvents, plannerEvents,
          legOrderEvents, List.mem_cons] at *
        rintro ((((h | h) | h | h) | h) | h)
        · simp at h
        · exact hfix h
        · simp at h
        · simp at h
        · simp at h
        · exact hlegs h
      next tr2 heq3 =>
        rw [heq3] at hlegs
        simp only [TRes.trace, List.mem_append, taskStartEvents, plannerEvents,
          legOrderEvents, List.mem_cons] at *
        rintro (((((h | h) | h | h) | h) | h) | h)
        · simp at h
        · exact hfix h
        · simp at h
        · simp at h
        · simp at h
        · exact hlegs h
        · simp at h

/-- C2 amended: whenever the leg set is non-empty the callback issues the
teleop switch exactly once, as the final action of the mission, on every exit
path (success or abort); on the empty-leg-set path it issues neither the
teleop nor the autonomy switch (the vehicle never entered autonomous mode). -/
theorem teleop_switch_once (op pp : String)
    (bruteP greedyP terrainP : List String → List String)
    (wps : List Waypoint) (legs : List String) (env : TaskEnv) (h : legs ≠ []) :
    (action_server_callback op pp bruteP greedyP terrainP wps legs env).trace.count
        Event.triggerTeleop = 1 ∧
    (action_server_callback op pp bruteP greedyP terrainP wps legs env).trace.getLast? =
        some Event.triggerTeleop := by
  have hno := teleop_not_exec_autonomy_task op pp bruteP greedyP terrainP wps legs env
  rcases heq : exec_autonomy_task op pp bruteP greedyP terrainP wps legs env with
    ⟨v, tr⟩ | ⟨e, lg, tr⟩
  · rcases v
    rw [heq] at hno
    simp only [TRes.trace] at hno
    have hcb : action_server_callback op pp bruteP greedyP terrainP wps legs env =
        { msg := "One small step for a rover, one giant leap for roverkind"
          outcome := .succeeded
          trace := .triggerAuto :: tr ++ [.triggerTeleop] } := by
      unfold action_server_callback
      rw [if_neg h, heq]
    rw [hcb]
    have hz : tr.count Event.triggerTeleop = 0 := List.count_eq_zero.mpr hno
    constructor
    · rw [show Event.triggerAuto :: tr ++ [Event.triggerTeleop] =
          (Event.triggerAuto :: tr) ++ [Event.triggerTeleop] from rfl]
      rw [List.count_append, List.count_cons, hz]
      simp
    · rw [show Event.triggerAuto :: tr ++ [Event.triggerTeleop] =
          (Event.triggerAuto :: tr) ++ [Event.triggerTeleop] from rfl]
      exact List.getLast?_concat _
  · rw [heq] at hno
    simp only [TRes.trace] at hno
    have hcb : action_server_callback op pp bruteP greedyP terrainP wps legs env =
        { msg := "It was the aliens, I'm telling you"
          outcome := .aborted
          trace := .triggerAuto :: tr ++ [.fatal lg e.toMessage, .triggerTeleop] } := by
      unfold action_server_callback
      rw [if_neg h, heq]
    rw [hcb]
    have hz : (Event.triggerAuto :: tr ++ [Event.fatal lg e.toMessage]).count
        Event.triggerTeleop = 0 := by
      refine List.count_eq_zero.mpr ?_
      intro hmem
      simp at hmem
      exact hno hmem
    have hsplit : Event.triggerAuto :: tr ++ [Event.fatal lg e.toMessage, Event.triggerTeleop] =
        (Event.triggerAuto :: tr ++ [Event.fatal lg e.toMessage]) ++ [Event.triggerTeleop] := by
      simp
    constructor
    · rw [hsplit, List.count_append, hz]
      simp
    · rw [hsplit]
      exact List.getLast?_concat _

/-- C2 witness: instantiating the once-and-last teleop property on the
concrete two-leg mission. -/
theorem teleop_switch_once_witness :
    twoLegRun.trace.count Event.triggerTeleop = 1 ∧
    twoLegRun.trace.getLast? = some Event.triggerTeleop := by
  exact teleop_switch_once "noOrderPlanner" "basicPathPlanner" id id id
    scenarioWps ["gps1", "aruco1"] ⟨[], false, twoLegEnvs⟩ (by decide)

/-- C1 amended: a raised exception in `exec_leg` aborts the whole mission (no
later leg runs), but the leg-local error returns — missing waypoint, invalid
leg type, target not found — end only the current leg with an error feedback,
and the leg loop continues with the next leg. -/
theorem leg_error_propagation (pp : String) (wps : List Waypoint) (l : String)
    (rest : List String) (envs : Nat → LegEnv) :
    (∀ e lg tr, exec_leg pp wps l (envs 0) = .err e lg tr →
      execLegs pp wps envs (l :: rest) = .err e lg tr) ∧
    (∀ tr, exec_leg pp wps l (envs 0) = .ok () tr →
      execLegs pp wps envs (l :: rest) =
        (execLegs pp wps (fun i => envs (i + 1)) rest).withPre tr) ∧
    (∀ ps, legKind l = some ps → lookupWp wps l = none →
      exec_leg pp wps l (envs 0) =
        .ok () [.info l ("Starting " ++ ps ++ " leg"),
                .error l "No GPS waypoint found for leg"]) ∧
    (legKind l = none →
      exec_leg pp wps l (envs 0) =
        .ok () [.error l ("Invalid leg type provided:" ++ l)]) ∧
    (∀ ps tr found0, searchStage pp l wps found0 (envs 0) = .ok none tr →
      targetPhase pp l ps wps (envs 0) found0 =
        .ok () (tr ++ [.error l ("Could not find the " ++ ps)])) := by
  refine ⟨?_, ?_, ?_, ?_, ?_⟩
  · intro e lg tr h
    simp only [execLegs, h]
  · intro tr h
    simp only [execLegs, h]
  · intro ps h1 h2
    simp only [exec_leg, h1, h2]
  · intro h1
    simp only [exec_leg, h1]
  · intro ps tr found0 h2
    simp only [targetPhase, h2]

/-- C1 witness: on the two-leg mission whose first leg has no waypoint entry,
the first leg returns normally with its error feedback and the loop proceeds
to the second leg. -/
theorem leg_error_propagation_witness :
    execLegs "basicPathPlanner" [⟨"gps2", 40, -111⟩] (fun _ => quietLegEnv)
        ["gps1", "gps2"] =
      (execLegs "basicPathPlanner" [⟨"gps2", 40, -111⟩] (fun _ => quietLegEnv)
          ["gps2"]).withPre
        [.info "gps1" "Starting GPS waypoint leg",
         .error "gps1" "No GPS waypoint found for leg"] := by
  have hthm := leg_error_propagation "basicPathPlanner" [⟨"gps2", 40, -111⟩] "gps1"
    ["gps2"] (fun _ => quietLegEnv)
  exact hthm.2.1 _ (hthm.2.2.1 "GPS waypoint" (by decide) (by with_unfolding_all decide))

/-- C4 amended: the path-follow and spin-search polling loops tick at 100 ms
and, provided no earlier tick already ended the loop, observe a raised cancel
request at its first tick, issue exactly one cancellation to the outstanding
motion goal and unwind by raising; the GPS-fix wait loop ticks at 1 s and
issues no motion-goal cancellation (no goal is outstanding on a fresh
executor); any canceled-exception unwind turns into the single aborted result
of the callback, whose tail contains no further motion goals. -/
theorem polling_loop_cancel (leg src : String) (dest : GeoPose) (result : NavResult)
    (pre1 pre2 pre3 : List Tick) (t : Tick) (post1 post2 post3 : List Tick)
    (preF postF : List Bool)
    (h1 : ∀ u ∈ pre1, u.cancelRequested = false ∧ found_check leg u.store = none)
    (h2 : ∀ u ∈ pre2, u.cancelRequested = false ∧ found_check leg u.store = none)
    (h3 : ∀ u ∈ pre3, u.cancelRequested = false ∧ found_check leg u.store ≠ none ∧
      optMaterial (found_check leg u.store) dest = false)
    (hF : ∀ b ∈ preF, b = false)
    (ht : t.cancelRequested = true) :
    navPollSleepMs = 100 ∧ spinPollSleepMs = 100 ∧ gpsFixSleepMs = 1000 ∧
    spinLoop leg src result (pre1 ++ t :: post1) =
      .err .canceled leg [.cancelGoal] ∧
    gpsNavLoop leg src dest false result (pre2 ++ t :: post2) =
      .err .canceled leg [.cancelGoal] ∧
    gpsNavLoop leg src dest true result (pre3 ++ t :: post3) =
      .err .canceled leg [.cancelGoal] ∧
    gpsFixWait leg false (preF ++ true :: postF) =
      .err .canceled leg
        (List.replicate (preF.length + 1) (.warn leg "Waiting on a GPS fix...")) ∧
    (∀ op pp bruteP greedyP terrainP wps legs env e lg tr, legs ≠ [] →
      exec_autonomy_task op pp bruteP greedyP terrainP wps legs env = .err e lg tr →
      action_server_callback op pp bruteP greedyP terrainP wps legs env =
        { msg := "It was the aliens, I'm telling you"
          outcome := .aborted
          trace := .triggerAuto :: tr ++ [.fatal lg e.toMessage, .triggerTeleop] }) := by
  refine ⟨rfl, rfl, rfl, ?_, ?_, ?_, ?_, ?_⟩
  · induction pre1 with
    | nil => simp [spinLoop, ht]
    | cons u rest ih =>
      have hu := h1 u (by simp)
      simp only [List.cons_append, spinLoop, hu.1, hu.2]
      exact ih (fun v hv => h1 v (by simp [hv]))
  · induction pre2 with
    | nil => simp [gpsNavLoop, ht]
    | cons u rest ih =>
      have hu := h2 u (by simp)
      simp only [List.cons_append, gpsNavLoop, hu.1, hu.2]
      exact ih (fun v hv => h2 v (by simp [hv]))
  · induction pre3 with
    | nil => simp [gpsNavLoop, ht]
    | cons u rest ih =>
      have hu := h3 u (by simp)
      rcases hfc : found_check leg u.store with _ | p
      · exact absurd hfc hu.2.1
      · have hmc : materialChange p dest = false := by
          have := hu.2.2
          rw [hfc] at this
          simpa [optMaterial] using this
        simp only [List.cons_append, gpsNavLoop, hu.1, hfc, hmc]
        simp only [Bool.false_eq_true, if_false]
        exact ih (fun v hv => h3 v (by simp [hv]))
  · induction preF with
    | nil => simp [gpsFixWait]
    | cons b rest ih =>
      have hb := hF b (by simp)
      subst hb
      have ih2 := ih (fun v hv => hF v (by simp [hv]))
      simp only [List.cons_append, gpsFixWait, Bool.false_eq_true, if_false, List.append_eq]
      rw [ih2]
      simp [TRes.withPre, List.replicate_succ]
  · intro op pp bruteP greedyP terrainP wps legs env e lg tr hne herr
    unfold action_server_callback
    rw [if_neg hne, herr]

/-- C4 witness: the loop-cancellation behaviour at concrete inputs — one quiet
tick followed by a cancel-requested tick in the spin-search loop. -/
theorem polling_loop_cancel_witness :
    spinLoop "aruco1" "" NavResult.succeeded [⟨false, none⟩, ⟨true, none⟩] =
      TRes.err TaskError.canceled "aruco1" [Event.cancelGoal] := by
  exact (polling_loop_cancel "aruco1" "" ⟨0, 0⟩ NavResult.succeeded
    [⟨false, none⟩] [] [] ⟨true, none⟩ [] [] [] [] []
    (by decide) (by decide) (by decide) (by decide) rfl).2.2.2.1

/-- The Python `abs` agrees with the mathematical absolute value. -/
theorem ratAbs_eq_abs (q : ℚ) : ratAbs q = |q| := by
  unfold ratAbs
  split
  next hlt => exact (abs_of_neg hlt).symm
  next hge => exact (abs_of_nonneg (le_of_not_lt hge)).symm

/-- In updating mode, with no cancel request and a populated store, the
`gps_nav` polling loop returns the pose of the first tick showing a material
change (after cancelling the in-flight goal), and completes returning `False`
when no tick shows one. -/
theorem gpsNavLoop_updating_find (leg src : String) (dest : GeoPose)
    (result : NavResult) :
    ∀ ticks : List Tick, (∀ t ∈ ticks, t.cancelRequested = false) →
      (∀ t ∈ ticks, found_check leg t.store ≠ none) →
      gpsNavLoop leg src dest true result ticks =
        (match ticks.find? (fun u => optMaterial (found_check leg u.store) dest) with
         | some u => TRes.ok (found_check leg u.store)
             [.info leg ("Improved GPS location found" ++ src), .cancelGoal]
         | none => TRes.ok none (navResultEvents leg src result)) := by
  intro ticks
  induction ticks with
  | nil => intro _ _; simp [gpsNavLoop, List.find?]
  | cons t rest ih =>
    intro h1 h2
    have hc := h1 t (by simp)
    have hf := h2 t (by simp)
    rcases hfc : found_check leg t.store with _ | p
    · exact absurd hfc hf
    · rcases hmc : materialChange p dest
      · rw [List.find?_cons_of_neg _ (by simp [hfc, optMaterial, hmc])]
        simp only [gpsNavLoop, hc, Bool.false_eq_true, if_false, hfc, hmc]
        exact ih (fun v hv => h1 v (by simp [hv])) (fun v hv => h2 v (by simp [hv]))
      · rw [List.find?_cons_of_pos _ (by simp [hfc, optMaterial, hmc])]
        simp [gpsNavLoop, hc, hfc, hmc]

/-- C6: the convergence behaviour of a target leg — the navigation in flight
is cancelled and restarted exactly at the first polling tick whose tracked
pose differs from the current destination by more than the 5e-6-degree
threshold in latitude or longitude, and the `while found_loc` loop of
`exec_leg` ends exactly when one navigation attempt completes without such a
change. -/
theorem convergence_loop_spec (leg src : String) (dest : GeoPose)
    (result : NavResult) (ticks : List Tick)
    (h1 : ∀ t ∈ ticks, t.cancelRequested = false)
    (h2 : ∀ t ∈ ticks, found_check leg t.store ≠ none) :
    updateThreshold = 5 / 1000000 ∧
    (∀ p d : GeoPose, materialChange p d = true ↔
      updateThreshold < |p.lat - d.lat| ∨ updateThreshold < |p.lon - d.lon|) ∧
    gpsNavLoop leg src dest true result ticks =
      (match ticks.find? (fun u => optMaterial (found_check leg u.store) dest) with
       | some u => TRes.ok (found_check leg u.store)
           [.info leg ("Improved GPS location found" ++ src), .cancelGoal]
       | none => TRes.ok none (navResultEvents leg src result)) ∧
    (∀ pp ps pose e rest tr, gps_nav pp leg ps pose true e = .ok none tr →
      convergenceLoop pp leg ps pose (e :: rest) = .ok () tr) ∧
    (∀ pp ps pose e rest tr p, gps_nav pp leg ps pose true e = .ok (some p) tr →
      convergenceLoop pp leg ps pose (e :: rest) =
        (convergenceLoop pp leg ps p rest).withPre tr) := by
  refine ⟨rfl, ?_, gpsNavLoop_updating_find leg src dest result ticks h1 h2, ?_, ?_⟩
  · intro p d
    simp [materialChange, ratAbs_eq_abs]
  · intro pp ps pose e rest tr hnav
    simp only [convergenceLoop, hnav]
  · intro pp ps pose e rest tr p hnav
    simp only [convergenceLoop, hnav]

/-- C6 witness: a tick whose tracked pose is 1 degree off the destination
triggers the cancel-and-restart branch with that pose. -/
theorem convergence_loop_spec_witness :
    gpsNavLoop "aruco1" "" ⟨0, 0⟩ true NavResult.succeeded [⟨false, some ⟨1, 0⟩⟩] =
      TRes.ok (some ⟨1, 0⟩)
        [Event.info "aruco1" "Improved GPS location found", Event.cancelGoal] := by
  rw [(convergence_loop_spec "aruco1" "" ⟨0, 0⟩ NavResult.succeeded
    [⟨false, some ⟨1, 0⟩⟩] (by decide) (by decide)).2.2.1]
  with_unfolding_all decide

/-- `withPre` does not change the returned value. -/
theorem value_withPre {α : Type} (pre : List Event) (r : TRes α) :
    (r.withPre pre).value = r.value := by
  cases r <;> rfl

/-- The `gps_nav` polling loop emits no follow-waypoints goal. -/
theorem destOf_gpsNavLoop (leg src : String) (dest : GeoPose) (u : Bool)
    (res : NavResult) :
    ∀ ticks, (gpsNavLoop leg src dest u res ticks).trace.filterMap destOf = [] := by
  intro ticks
  induction ticks with
  | nil => cases res <;> simp [gpsNavLoop, TRes.trace, navResultEvents, destOf]
  | cons t rest ih =>
    simp only [gpsNavLoop]
    split
    · simp [TRes.trace, destOf]
    · split
      · rcases hfc : found_check leg t.store with _ | p <;> simp only [hfc]
        · simp [TRes.trace]
        · split
          · simp [TRes.trace, destOf]
          · exact ih
      · rcases hfc : found_check leg t.store with _ | p <;> simp only [hfc]
        · exact ih
        · simp [TRes.trace, destOf]

/-- The `spin_search` polling loop emits no follow-waypoints goal. -/
theorem destOf_spinLoop (leg src : String) (res : NavResult) :
    ∀ ticks, (spinLoop leg src res ticks).trace.filterMap destOf = [] := by
  intro ticks
  induction ticks with
  | nil => cases res <;> simp [spinLoop, TRes.trace, spinResultEvents, destOf]
  | cons t rest ih =>
    simp only [spinLoop]
    split
    · simp [TRes.trace, destOf]
    · rcases hfc : found_check leg t.store with _ | p <;> simp only [hfc]
      · exact ih
      · simp [TRes.trace, destOf]

/-- One `gps_nav` call navigates to exactly its destination, or to nothing at
all when the path-planner name is invalid. -/
theorem visited_gps_nav (pp leg src : String) (dest : GeoPose) (u : Bool)
    (env : MotionEnv) :
    visited (gps_nav pp leg src dest u env) = [dest] ∨
    visited (gps_nav pp leg src dest u env) = [] := by
  unfold gps_nav visited
  split
  · left
    rw [trace_withPre, List.filterMap_append, destOf_gpsNavLoop]
    simp [destOf]
  · right
    simp [TRes.trace, destOf]

/-- A `spin_search` call navigates nowhere. -/
theorem visited_spin_search (leg src : String) (env : MotionEnv) :
    visited (spin_search leg src env) = [] := by
  unfold spin_search visited
  rw [trace_withPre, List.filterMap_append, destOf_spinLoop]
  simp [destOf]

/-- The hex sweep navigates to at most one destination per remaining vertex. -/
theorem visited_hexLoop_le (pp leg : String) (base : GeoPose) (env : HexEnv) :
    ∀ cs i, (visited (hexLoop pp leg base env i cs)).length ≤ cs.length := by
  intro cs
  induction cs with
  | nil => intro i; simp [hexLoop, visited, TRes.trace, destOf]
  | cons c rest ih =>
    intro i
    have hnav := visited_gps_nav pp leg (" (hex " ++ toString i ++ ")")
      (hexVertex base c) false (env.nav i)
    have hspin := visited_spin_search leg (" (hex " ++ toString i ++ ")") (env.spin i)
    rcases hG : gps_nav pp leg (" (hex " ++ toString i ++ ")") (hexVertex base c) false
        (env.nav i) with ⟨v1, tr1⟩ | ⟨e1, lg1, tr1⟩
    · rw [hG] at hnav
      simp only [visited, TRes.trace] at hnav
      rcases v1 with _ | p1
      · rcases hS : spin_search leg (" (hex " ++ toString i ++ ")") (env.spin i) with
          ⟨v2, tr2⟩ | ⟨e2, lg2, tr2⟩
        · rw [hS] at hspin
          simp only [visited, TRes.trace] at hspin
          rcases v2 with _ | p2
          · simp only [hexLoop, hG, hS]
            have hr := ih (i + 1)
            simp only [visited] at hr ⊢
            rw [trace_withPre, List.filterMap_append, List.filterMap_append, hspin]
            rcases hnav with h | h <;> simp [h] <;> omega
          · simp only [hexLoop, hG, hS, visited, TRes.trace]
            rw [List.filterMap_append, hspin]
            rcases hnav with h | h <;> simp [h]
        · rw [hS] at hspin
          simp only [visited, TRes.trace] at hspin
          simp only [hexLoop, hG, hS, visited, TRes.trace]
          rw [List.filterMap_append, hspin]
          rcases hnav with h | h <;> simp [h]
      · simp only [hexLoop, hG, visited, TRes.trace]
        rcases hnav with h | h <;> simp [h]
    · rw [hG] at hnav
      simp only [visited, TRes.trace] at hnav
      simp only [hexLoop, hG, visited, TRes.trace]
      rcases hnav with h | h <;> simp [h]

/-- A `gps_nav` call with a valid planner whose goal completes before any tick
returns `False` after visiting its destination. -/
theorem gps_nav_quiet (pp leg src : String) (dest : GeoPose)
    (hpp : pp = "basicPathPlanner" ∨ pp = "terrainPathPlanner") :
    gps_nav pp leg src dest false quietMotion =
      .ok none [.info leg ("Starting GPS navigation" ++ src), .followGps dest,
        .info leg ("GPS navigation completed" ++ src)] := by
  rcases hpp with h | h <;> subst h <;>
    simp [gps_nav, gpsNavLoop, quietMotion, navResultEvents, TRes.withPre]

/-- A `spin_search` whose goal completes before any tick returns `False`. -/
theorem spin_search_quiet (leg src : String) :
    spin_search leg src quietMotion =
      .ok none [.info leg ("Starting spin search" ++ src), .spinGoal (157/50),
        .info leg ("Spin search completed" ++ src)] := rfl

/-- A `spin_search` that observes a stored pose on its first tick cancels the
spin and returns the pose. -/
theorem spin_search_detect (leg src : String) (found : GeoPose)
    (hfc : found_check leg (some found) = some found) :
    spin_search leg src ⟨[⟨false, some found⟩], .succeeded⟩ =
      .ok (some found) [.info leg ("Starting spin search" ++ src), .spinGoal (157/50),
        .cancelGoal] := by
  simp [spin_search, spinLoop, hfc, TRes.withPre]

/-- The hex sweep under `hexDetectEnv`: vertices before the detecting one are
visited in order and quietly, the detection at vertex `i + k` (found during
its rotate-search) is returned immediately, and no vertex after it is
visited — the visited destinations are exactly the first `k + 1` vertices. -/
theorem hexLoop_detect (pp leg : String) (base found : GeoPose)
    (hpp : pp = "basicPathPlanner" ∨ pp = "terrainPathPlanner")
    (hfc : found_check leg (some found) = some found) :
    ∀ (cs : List (ℚ × ℚ)) (i k : Nat), k < cs.length →
      (hexLoop pp leg base (hexDetectEnv (i + k) found) i cs).value = some (some found) ∧
      visited (hexLoop pp leg base (hexDetectEnv (i + k) found) i cs) =
        (cs.take (k + 1)).map (hexVertex base) := by
  intro cs
  induction cs with
  | nil => intro i k hk; simp at hk
  | cons c rest ih =>
    intro i k hk
    have hnav : gps_nav pp leg (" (hex " ++ toString i ++ ")") (hexVertex base c) false
        ((hexDetectEnv (i + k) found).nav i) =
        .ok none [.info leg ("Starting GPS navigation" ++ (" (hex " ++ toString i ++ ")")),
          .followGps (hexVertex base c),
          .info leg ("GPS navigation completed" ++ (" (hex " ++ toString i ++ ")"))] :=
      gps_nav_quiet pp leg (" (hex " ++ toString i ++ ")") (hexVertex base c) hpp
    rcases k with _ | k
    · have hsp : (hexDetectEnv (i + 0) found).spin i = ⟨[⟨false, some found⟩], .succeeded⟩ := by
        simp [hexDetectEnv]
      have hspin := spin_search_detect leg (" (hex " ++ toString i ++ ")") found hfc
      rw [← hsp] at hspin
      simp only [hexLoop, hnav, hspin]
      constructor
      · rfl
      · simp [visited, TRes.trace, destOf, hexVertex]
    · have hsp : (hexDetectEnv (i + (k + 1)) found).spin i = quietMotion := by
        have : ¬ i = i + (k + 1) := by omega
        simp [hexDetectEnv, this]
      have hspin := spin_search_quiet leg (" (hex " ++ toString i ++ ")")
      rw [← hsp] at hspin
      simp only [hexLoop, hnav, hspin]
      have harith : i + (k + 1) = (i + 1) + k := by omega
      rw [harith]
      have hrec := ih (i + 1) k (by simpa using hk)
      constructor
      · rw [value_withPre]
        exact hrec.1
      · simp only [visited] at hrec ⊢
        rw [trace_withPre, List.filterMap_append]
        rw [hrec.2]
        simp [destOf, List.take]

/-- C7: the hex search visits at most 6 vertices, at the documented offsets
(`base + hex_coord[i] * hex_scalar`) in the documented order; each vertex is
first navigated to (`gps_nav`, which re-checks the detection store each tick)
and then rotate-searched; the first detection is returned immediately and no
later vertex is visited — a detection at vertex `k` leaves exactly vertices
`0..k` visited. -/
theorem hex_search_spec (pp leg : String) (base found : GeoPose)
    (wps : List Waypoint) (k : Fin 6)
    (hpp : pp = "basicPathPlanner" ∨ pp = "terrainPathPlanner")
    (hleg : leg ∈ arucoLegs ∨ leg ∈ objLegs)
    (hwp : lookupWp wps leg = some base) :
    hexCoord.length = 6 ∧
    hexScalar = 1 / 10000 ∧
    (∀ b c, hexVertex b c = ⟨b.lat + c.1 * hexScalar, b.lon + c.2 * hexScalar⟩) ∧
    (∀ env : HexEnv, (visited (hex_search pp leg wps env)).length ≤ 6) ∧
    (hex_search pp leg wps (hexDetectEnv k.val found)).value = some (some found) ∧
    visited (hex_search pp leg wps (hexDetectEnv k.val found)) =
      (hexCoord.take (k.val + 1)).map (hexVertex base) := by
  have hfc : found_check leg (some found) = some found := by
    unfold found_check
    rw [if_pos hleg]
  have hdet := hexLoop_detect pp leg base found hpp hfc hexCoord 0 k.val
    (by exact k.isLt)
  rw [Nat.zero_add] at hdet
  refine ⟨rfl, rfl, fun b c => rfl, ?_, ?_, ?_⟩
  · intro env
    unfold hex_search
    rw [hwp]
    have hle := visited_hexLoop_le pp leg base env hexCoord 0
    simp only [visited, trace_withPre, List.filterMap_append] at hle ⊢
    simpa [destOf] using hle
  · unfold hex_search
    rw [hwp, value_withPre]
    exact hdet.1
  · unfold hex_search
    rw [hwp]
    simp only [visited, trace_withPre, List.filterMap_append] at hdet ⊢
    rw [hdet.2]
    simp [destOf]

/-- C7 witness: with the detection reported during vertex 2's rotate-search
(the third vertex), the sweep returns it and visits exactly vertices 0-2. -/
theorem hex_search_spec_witness :
    (hex_search "basicPathPlanner" "aruco1" scenarioWps
        (hexDetectEnv 2 scenarioFound)).value = some (some scenarioFound) ∧
    visited (hex_search "basicPathPlanner" "aruco1" scenarioWps
        (hexDetectEnv 2 scenarioFound)) =
      (hexCoord.take 3).map (hexVertex ⟨40001/1000, -(111001/1000)⟩) := by
  have h := hex_search_spec "basicPathPlanner" "aruco1" ⟨40001/1000, -(111001/1000)⟩
    scenarioFound scenarioWps ⟨2, by decide⟩ (Or.inl rfl) (by decide)
    (by simp [lookupWp, scenarioWps])
  exact ⟨h.2.2.2.2.1, h.2.2.2.2.2⟩

/-- The `gps_nav` polling loop (called without a search suffix) emits no
search event. -/
theorem searchFree_gpsNavLoop (leg : String) (dest : GeoPose) (u : Bool)
    (res : NavResult) :
    ∀ ticks, (gpsNavLoop leg "" dest u res ticks).trace.filter isSearchEvent = [] := by
  have hImp : isSearchEvent (Event.info leg ("Improved GPS location found" ++ "")) = false := by
    simp only [isSearchEvent]
    decide
  have hCmp : isSearchEvent (Event.info leg ("GPS navigation completed" ++ "")) = false := by
    simp only [isSearchEvent]
    decide
  intro ticks
  induction ticks with
  | nil => cases res <;> simp [gpsNavLoop, TRes.trace, navResultEvents, isSearchEvent, hCmp]
  | cons t rest ih =>
    simp only [gpsNavLoop]
    split
    · simp [TRes.trace, isSearchEvent]
    · split
      · rcases hfc : found_check leg t.store with _ | p <;> simp only [hfc]
        · simp [TRes.trace]
        · split
          · simp [TRes.trace, isSearchEvent, hImp]
          · exact ih
      · rcases hfc : found_check leg t.store with _ | p <;> simp only [hfc]
        · exact ih
        · simp [TRes.trace, isSearchEvent]

/-- A direct `gps_nav` call (no search suffix) emits no search event. -/
theorem searchFree_gps_nav (pp leg : String) (dest : GeoPose) (u : Bool)
    (env : MotionEnv) :
    (gps_nav pp leg "" dest u env).trace.filter isSearchEvent = [] := by
  have hStart : isSearchEvent (Event.info leg ("Starting GPS navigation" ++ "")) = false := by
    simp only [isSearchEvent]
    decide
  unfold gps_nav
  split
  · rw [trace_withPre, List.filter_append, searchFree_gpsNavLoop]
    simp [isSearchEvent, hStart]
  · simp [TRes.trace, isSearchEvent, hStart]

/-- `exec_leg` on a leg of GPS-waypoint kind never reaches the search
branch and hence emits no search event. -/
theorem searchFree_exec_leg_gps (pp : String) (wps : List Waypoint) (leg : String)
    (env : LegEnv) (hk : legKind leg = some "GPS waypoint")
    (hna : ¬ (leg ∈ arucoLegs ∨ leg ∈ objLegs)) :
    (exec_leg pp wps leg env).trace.filter isSearchEvent = [] := by
  have h1 : isSearchEvent (Event.info leg ("Starting " ++ "GPS waypoint" ++ " leg")) = false := by
    simp only [isSearchEvent]
    decide
  have h2 : isSearchEvent (Event.info leg ("SUCCESS! Navigated to " ++ "GPS waypoint")) = false := by
    simp only [isSearchEvent]
    decide
  have h3 : isSearchEvent (Event.info leg "Flashing LED to indicate arrival") = false := by
    simp only [isSearchEvent]
    decide
  unfold exec_leg
  simp only [hk]
  rcases hw : lookupWp wps leg with _ | legWp <;> simp only [hw]
  · simp [TRes.trace, isSearchEvent, h1]
  · rcases hG : gps_nav pp leg "" legWp false env.nav with ⟨v1, tr1⟩ | ⟨e1, lg1, tr1⟩ <;>
      simp only [hG]
    · have hft := searchFree_gps_nav pp leg legWp false env.nav
      rw [hG] at hft
      simp only [TRes.trace] at hft
      rw [if_neg hna]
      simp [TRes.trace, List.filter_append, hft, isSearchEvent, h1, h2, h3, arrivalEvents]
    · have hft := searchFree_gps_nav pp leg legWp false env.nav
      rw [hG] at hft
      simp only [TRes.trace] at hft
      have hall := List.filter_eq_nil_iff.mp hft
      simp only [TRes.trace, List.filter_eq_nil_iff]
      intro a ha
      rcases List.mem_cons.mp ha with rfl | ha2
      · simp only [isSearchEvent]
        decide
      · exact hall a ha2

/-- C8: for a plain GPS-waypoint leg, neither the spin search nor the hex
search ever runs — the leg's trace contains no search event (no spin goal,
no hex-search start). -/
theorem no_search_for_gps_legs (pp : String) (wps : List Waypoint) (leg : String)
    (env : LegEnv) (h : leg ∈ gpsLegs) :
    (exec_leg pp wps leg env).trace.filter isSearchEvent = [] := by
  have h2 : leg = "gps1" ∨ leg = "gps2" := by
    simpa [gpsLegs] using h
  rcases h2 with rfl | rfl
  · exact searchFree_exec_leg_gps pp wps "gps1" env (by decide) (by decide)
  · exact searchFree_exec_leg_gps pp wps "gps2" env (by decide) (by decide)

/-- C8 witness: the search-free property at a concrete GPS leg. -/
theorem no_search_for_gps_legs_witness :
    (exec_leg "basicPathPlanner" scenarioWps "gps1" quietLegEnv).trace.filter
      isSearchEvent = [] := by
  exact no_search_for_gps_legs "basicPathPlanner" scenarioWps "gps1" quietLegEnv (by decide)

/-- One aruco-marker step never writes any key other than the current leg. -/
theorem arucoStep_frame (leg : String) (st : String → Option GeoPose)
    (m : ArucoMarker) (k : String) (hk : k ≠ leg) :
    arucoStep leg st m k = st k := by
  unfold arucoStep
  split
  · rcases hc : m.conv with _ | p <;> simp [hc, hk]
  · rfl

/-- The aruco marker fold never writes any key other than the current leg. -/
theorem arucoFold_frame (leg : String) :
    ∀ (markers : List ArucoMarker) (st : String → Option GeoPose) (k : String),
      k ≠ leg → (markers.foldl (arucoStep leg) st) k = st k := by
  intro markers
  induction markers with
  | nil => intro st k _; rfl
  | cons m rest ih =>
    intro st k hk
    rw [List.foldl_cons, ih (arucoStep leg st m) k hk]
    exact arucoStep_frame leg st m k hk

/-- One object step never writes any key other than the current leg. -/
theorem objStep_frame (leg : String) (st : String → Option GeoPose)
    (o : ObjDet) (k : String) (hk : k ≠ leg) :
    objStep leg st o k = st k := by
  unfold objStep
  split
  · rcases hc : o.conv with _ | p <;> simp [hc, hk]
  · rfl

/-- The object fold never writes any key other than the current leg. -/
theorem objFold_frame (leg : String) :
    ∀ (objs : List ObjDet) (st : String → Option GeoPose) (k : String),
      k ≠ leg → (objs.foldl (objStep leg) st) k = st k := by
  intro objs
  induction objs with
  | nil => intro st k _; rfl
  | cons o rest ih =>
    intro st k hk
    rw [List.foldl_cons, ih (objStep leg st o) k hk]
    exact objStep_frame leg st o k hk

/-- A message whose markers all fail the tag filter leaves the store
untouched. -/
theorem arucoFold_discard (leg : String) :
    ∀ (markers : List ArucoMarker),
      (∀ m ∈ markers, ¬ tagsLookup leg = some m.markerId) →
      ∀ st, markers.foldl (arucoStep leg) st = st := by
  intro markers
  induction markers with
  | nil => intro _ st; rfl
  | cons m rest ih =>
    intro h st
    rw [List.foldl_cons]
    have hstep : arucoStep leg st m = st := by
      unfold arucoStep
      rw [if_neg (h m (by simp))]
    rw [hstep]
    exact ih (fun v hv => h v (by simp [hv])) st

/-- A message whose objects all fail the substring filter leaves the store
untouched. -/
theorem objFold_discard (leg : String) :
    ∀ (objs : List ObjDet), (∀ o ∈ objs, strIn o.label leg = false) →
      ∀ st, objs.foldl (objStep leg) st = st := by
  intro objs
  induction objs with
  | nil => intro _ st; rfl
  | cons o rest ih =>
    intro h st
    rw [List.foldl_cons]
    have hstep : objStep leg st o = st := by
      unfold objStep
      rw [if_neg (by simp [h o (by simp)])]
    rw [hstep]
    exact ih (fun v hv => h v (by simp [hv])) st

/-- The value the aruco fold leaves at the current leg depends only on the
value the store had there. -/
theorem arucoFold_congr (leg : String) :
    ∀ (markers : List ArucoMarker) (st1 st2 : String → Option GeoPose),
      st1 leg = st2 leg →
      (markers.foldl (arucoStep leg) st1) leg = (markers.foldl (arucoStep leg) st2) leg := by
  intro markers
  induction markers with
  | nil => intro st1 st2 h; exact h
  | cons m rest ih =>
    intro st1 st2 h
    rw [List.foldl_cons, List.foldl_cons]
    apply ih
    unfold arucoStep
    split
    · rcases hc : m.conv with _ | p <;> simp only [hc]
      · exact h
      · simp
    · exact h

/-- The value the object fold leaves at the current leg depends only on the
value the store had there. -/
theorem objFold_congr (leg : String) :
    ∀ (objs : List ObjDet) (st1 st2 : String → Option GeoPose),
      st1 leg = st2 leg →
      (objs.foldl (objStep leg) st1) leg = (objs.foldl (objStep leg) st2) leg := by
  intro objs
  induction objs with
  | nil => intro st1 st2 h; exact h
  | cons o rest ih =>
    intro st1 st2 h
    rw [List.foldl_cons, List.foldl_cons]
    apply ih
    unfold objStep
    split
    · rcases hc : o.conv with _ | p <;> simp only [hc]
      · exact h
      · simp
    · exact h

/-- A perception callback never writes any key other than its current leg. -/
theorem applyCb_frame (st : String → Option GeoPose) (c : CbCall) (k : String)
    (hk : k ≠ c.leg) : applyCb st c k = st k := by
  cases c with
  | aruco l markers =>
    simp only [CbCall.leg] at hk
    simp only [applyCb]
    unfold aruco_callback
    split
    · exact arucoFold_frame l markers st k hk
    · rfl
  | obj l objs =>
    simp only [CbCall.leg] at hk
    simp only [applyCb]
    unfold obj_callback
    split
    · exact objFold_frame l objs st k hk
    · rfl

/-- The value a perception callback leaves at its current leg depends only on
the value the store had there. -/
theorem applyCb_congr (c : CbCall) (st1 st2 : String → Option GeoPose)
    (h : st1 c.leg = st2 c.leg) : applyCb st1 c c.leg = applyCb st2 c c.leg := by
  cases c with
  | aruco l markers =>
    simp only [CbCall.leg] at h
    simp only [applyCb]
    unfold aruco_callback
    split
    · exact arucoFold_congr l markers st1 st2 h
    · exact h
  | obj l objs =>
    simp only [CbCall.leg] at h
    simp only [applyCb]
    unfold obj_callback
    split
    · exact objFold_congr l objs st1 st2 h
    · exact h

/-- The value a callback sequence leaves at a label depends only on the value
the store had there. -/
theorem runCallbacks_congr :
    ∀ (calls : List CbCall) (st1 st2 : String → Option GeoPose) (L : String),
      st1 L = st2 L → runCallbacks st1 calls L = runCallbacks st2 calls L := by
  intro calls
  induction calls with
  | nil => intro st1 st2 L h; exact h
  | cons c rest ih =>
    intro st1 st2 L h
    simp only [runCallbacks]
    apply ih
    by_cases hL : L = c.leg
    · subst hL
      exact applyCb_congr c st1 st2 h
    · rw [applyCb_frame st1 c L hL, applyCb_frame st2 c L hL]
      exact h

/-- The store entry of a label is determined by the callback invocations made
while that label was the current leg. -/
theorem runCallbacks_filter :
    ∀ (calls : List CbCall) (store : String → Option GeoPose) (L : String),
      runCallbacks store calls L =
        runCallbacks store (calls.filter (fun c => c.leg == L)) L := by
  intro calls
  induction calls with
  | nil => intro store L; rfl
  | cons c rest ih =>
    intro store L
    simp only [runCallbacks, List.filter_cons]
    by_cases hL : c.leg = L
    · rw [if_pos (by simp [hL])]
      simp only [runCallbacks]
      exact ih (applyCb store c) L
    · rw [if_neg (by simp [hL])]
      rw [ih (applyCb store c) L]
      apply runCallbacks_congr
      exact applyCb_frame store c L (fun hh => hL hh.symm)

/-- C9: the `found_poses` store is only ever written at the key of the
currently executing leg — a detection whose id does not match the current
tag, or whose label fails the substring filter, is discarded entirely — and
the entry a lookup reads for a label is determined solely by the callbacks
that ran while that label was the current leg. -/
theorem found_store_current_leg_only :
    (∀ leg store markers k, k ≠ leg → aruco_callback leg store markers k = store k) ∧
    (∀ leg store objs k, k ≠ leg → obj_callback leg store objs k = store k) ∧
    (∀ leg store markers, (∀ m ∈ markers, ¬ tagsLookup leg = some m.markerId) →
      aruco_callback leg store markers = store) ∧
    (∀ leg store objs, (∀ o ∈ objs, strIn o.label leg = false) →
      obj_callback leg store objs = store) ∧
    (∀ calls store L, runCallbacks store calls L =
      runCallbacks store (calls.filter (fun c => c.leg == L)) L) := by
  refine ⟨?_, ?_, ?_, ?_, runCallbacks_filter⟩
  · intro leg store markers k hk
    unfold aruco_callback
    split
    · exact arucoFold_frame leg markers store k hk
    · rfl
  · intro leg store objs k hk
    unfold obj_callback
    split
    · exact objFold_frame leg objs store k hk
    · rfl
  · intro leg store markers h
    unfold aruco_callback
    split
    · exact arucoFold_discard leg markers h store
    · rfl
  · intro leg store objs h
    unfold obj_callback
    split
    · exact objFold_discard leg objs h store
    · rfl

/-- C9 witness: with `aruco1` current, a marker carrying `aruco2`'s tag id
leaves `aruco2`'s entry untouched. -/
theorem found_store_current_leg_only_witness :
    aruco_callback "aruco1" emptyStore [⟨2, some ⟨1, 2⟩⟩] "aruco2" =
      emptyStore "aruco2" := by
  exact found_store_current_leg_only.1 "aruco1" emptyStore [⟨2, some ⟨1, 2⟩⟩]
    "aruco2" (by decide)

/-- Python's `sub in s` holds exactly when `sub`'s characters occur as a
contiguous run inside `s`. -/
theorem strIn_iff (sub s : String) :
    strIn sub s = true ↔ ∃ pre post, s.data = pre ++ sub.data ++ post := by
  unfold strIn
  rw [List.any_eq_true]
  constructor
  · rintro ⟨i, _, heq⟩
    rw [beq_iff_eq] at heq
    refine ⟨s.data.take i, (s.data.drop i).drop sub.data.length, ?_⟩
    calc s.data = s.data.take i ++ s.data.drop i := (List.take_append_drop i s.data).symm
    _ = s.data.take i ++
        ((s.data.drop i).take sub.data.length ++ (s.data.drop i).drop sub.data.length) := by
        rw [List.take_append_drop sub.data.length (List.drop i s.data),
            List.take_append_drop i s.data]
    _ = s.data.take i ++ sub.data ++ (s.data.drop i).drop sub.data.length := by
        rw [heq, List.append_assoc]
  · rintro ⟨pre, post, hdecomp⟩
    refine ⟨pre.length, ?_, ?_⟩
    · rw [List.mem_range]
      have hlen : s.length = s.data.length := rfl
      rw [hlen, hdecomp]
      simp only [List.length_append]
      omega
    · rw [beq_iff_eq, hdecomp, List.append_assoc, List.drop_left, List.take_left]

/-- C10: an object detection updates the store exactly under the substring
filter `obj.label in self.leg` — any contiguous substring of the leg name
matches (equality included), while a label that merely extends the leg name
does not. -/
theorem obj_label_substring_spec :
    (∀ sub s, strIn sub s = true ↔ ∃ pre post, s.data = pre ++ sub.data ++ post) ∧
    (∀ leg store o k, obj_callback leg store [o] k ≠ store k →
      strIn o.label leg = true) ∧
    (∀ leg store o p, leg ∈ objLegs → strIn o.label leg = true → o.conv = some p →
      obj_callback leg store [o] leg = some p) ∧
    strIn "mallets" "mallet" = false ∧
    strIn "all" "mallet" = true ∧
    strIn "mallet" "mallet" = true := by
  refine ⟨strIn_iff, ?_, ?_, by decide, by decide, by decide⟩
  · intro leg store o k hne
    by_contra hlab
    apply hne
    unfold obj_callback
    split
    · rw [List.foldl_cons]
      have hstep : objStep leg store o = store := by
        unfold objStep
        rw [if_neg hlab]
      rw [hstep]
      rfl
    · rfl
  · intro leg store o p hleg hlab hconv
    unfold obj_callback
    rw [if_pos hleg, List.foldl_cons]
    unfold objStep
    rw [if_pos hlab]
    simp only [hconv]
    simp

/-- C10 witness: with current leg `mallet`, a detection labelled `all` (a
proper substring of the leg name) whose conversion succeeds is stored. -/
theorem obj_label_substring_spec_witness :
    obj_callback "mallet" emptyStore [⟨"all", some ⟨3, 4⟩⟩] "mallet" = some ⟨3, 4⟩ := by
  exact obj_label_substring_spec.2.2.1 "mallet" emptyStore ⟨"all", some ⟨3, 4⟩⟩ ⟨3, 4⟩
    (by decide) (by decide) rfl
